import Mathlib

/-!
Shallow embedding of the subscription-reconciliation backend
(server.js and its earlier revision, called V0 below).

Timestamps are modelled as natural numbers (milliseconds since the epoch);
the JavaScript comparison of Date objects becomes comparison of these
numbers.  A JavaScript `new Date(null)` is the epoch, so a null billing
date read through `new Date` is modelled as `Option.getD 0`.  The store
(the `users` table in Supabase) is a list of records; a Supabase
`update ... eq(col, v)` is a map over the list updating every matching
row, and `single()` succeeds exactly when the filter returns one row.
-/

/-- A row of the `users` table (see the schema in SUBSCRIPTION_GUIDE.md). -/
structure UserRecord where
  user_id : String
  email : String
  name : String
  subscription_id : Option String
  session_id : Option String
  is_premium : Bool
  status : String
  next_billing_date : Option Nat
  cancel_at_billing_date : Bool
  created_at : Nat
  updated_at : Nat
deriving DecidableEq, Repr

/-- The webhook event envelope: `{type, data:{subscription_id,
customer:{email}, next_billing_date, checkout_session_id | session_id}}`.
The two session fields of the V0 revision are collapsed into one, matching
the expression `event.data.checkout_session_id || event.data.session_id`. -/
structure WebhookEvent where
  type : String
  subscription_id : Option String
  customer_email : Option String
  next_billing_date : Option Nat
  session_id : Option String
deriving DecidableEq, Repr

/-- Response body of GET /api/user/:userId/status (the two fields the
claims are about). -/
structure StatusResponse where
  isPremium : Bool
  status : String
deriving DecidableEq, Repr

/-- The update written by the sweep and by the expired branches:
`{is_premium: false, status: "expired", updated_at: new Date()}`. -/
def expireFields (now : Nat) (u : UserRecord) : UserRecord :=
  { u with is_premium := false, status := "expired", updated_at := now }

/-- `supabase.from("users").update(expireFields).eq("user_id", uid)`. -/
def expireUser (now : Nat) (uid : String) (store : List UserRecord) : List UserRecord :=
  store.map fun u => if u.user_id == uid then expireFields now u else u

/-- The selection filter of the sweep query:
`.eq("cancel_at_billing_date", true).eq("is_premium", true)
.lte("next_billing_date", now.toISOString())` (a SQL null billing date
matches no lte filter). -/
def sweepEligible (now : Nat) (u : UserRecord) : Bool :=
  u.cancel_at_billing_date && u.is_premium &&
    (match u.next_billing_date with
     | some d => decide (d ≤ now)
     | none => false)

/-- `checkExpiredSubscriptions` (server.js lines 34-78): select all
eligible rows, then update each selected row by its user_id. -/
def checkExpiredSubscriptions (now : Nat) (store : List UserRecord) : List UserRecord :=
  (store.filter (sweepEligible now)).foldl (fun s u => expireUser now u.user_id s) store

/-- GET /api/user/:userId/status (server.js lines 134-187).  The
`single()` call yields a row only when the filter matches exactly one;
on error, no row, or a row without subscription_id the endpoint answers
`{isPremium: false, status: "free"}` without touching the store. -/
def getUserStatus (now : Nat) (userId : String) (store : List UserRecord) :
    StatusResponse × List UserRecord :=
  match store.filter (fun u => u.user_id == userId) with
  | [u] =>
    match u.subscription_id with
    | some _ =>
      if u.cancel_at_billing_date && decide (u.next_billing_date.getD 0 ≤ now) then
        ({ isPremium := false, status := "expired" },
         store.map fun v =>
           if v.user_id == userId then
             { v with is_premium := false, status := "expired", updated_at := now }
           else v)
      else
        ({ isPremium := u.is_premium, status := u.status }, store)
    | none => ({ isPremium := false, status := "free" }, store)
  | _ => ({ isPremium := false, status := "free" }, store)

/-- POST /api/cancel-subscription (server.js lines 190-260).  The
`providerOk` flag is the `response.ok` of the outbound PATCH to the
provider.  Returns the HTTP status code and the updated store. -/
def cancelSubscription (providerOk : Bool) (now : Nat) (userId subId : String)
    (store : List UserRecord) : Nat × List UserRecord :=
  match store.filter (fun u => u.user_id == userId && u.subscription_id == some subId) with
  | [_] =>
    if providerOk then
      (200,
       store.map fun u =>
         if u.user_id == userId then
           { u with cancel_at_billing_date := true, status := "cancelling", updated_at := now }
         else u)
    else (400, store)
  | _ => (404, store)

/-- The fields written by the activation cases (subscription.created /
subscription.active / subscription.renewed, server.js lines 294-305).
A JSON-stringified `undefined` key is dropped, so an absent
next_billing_date leaves the column unchanged. -/
def activateFields (subId : String) (nb : Option Nat) (now : Nat) (u : UserRecord) : UserRecord :=
  { u with subscription_id := some subId, is_premium := true, status := "active",
           next_billing_date := match nb with | some d => some d | none => u.next_billing_date,
           cancel_at_billing_date := false, updated_at := now }

/-- The fields written by the subscription.cancelled case (server.js
lines 329-338): keep premium exactly when the billing date is strictly
in the future; note the status string written is "cancelled". -/
def cancelFields (nextBilling now : Nat) (u : UserRecord) : UserRecord :=
  { u with is_premium := decide (now < nextBilling),
           status := if now < nextBilling then "cancelled" else "expired",
           cancel_at_billing_date := decide (now < nextBilling),
           updated_at := now }

/-- The fields written by the payment.succeeded case (server.js lines
355-365); unlike activation it does not touch cancel_at_billing_date. -/
def paymentFields (subId : String) (nb : Option Nat) (now : Nat) (u : UserRecord) : UserRecord :=
  { u with subscription_id := some subId, is_premium := true, status := "active",
           next_billing_date := match nb with | some d => some d | none => u.next_billing_date,
           updated_at := now }

/-- The arms of the webhook switch statement. -/
inductive EventAction where
  | activate
  | cancel
  | paymentOk
  | paymentFail
  | expire
  | ignore
deriving DecidableEq, Repr

/-- The dispatch of `switch (event.type)` (server.js lines 283-403):
three case labels fall through to the activation arm, an unrecognized
type reaches the default arm. -/
def classifyEvent (t : String) : EventAction :=
  if t == "subscription.created" || t == "subscription.active"
      || t == "subscription.renewed" then .activate
  else if t == "subscription.cancelled" then .cancel
  else if t == "payment.succeeded" then .paymentOk
  else if t == "payment.failed" then .paymentFail
  else if t == "subscription.expired" then .expire
  else .ignore

/-- The body of the webhook switch (server.js lines 275-404): an event
without subscription_id is acknowledged untouched; activation and
payment.succeeded match rows by customer email (skipping when the email
is absent); subscription.cancelled, payment.failed and
subscription.expired match rows by subscription_id; an unrecognized type
changes nothing. -/
def processEvent (now : Nat) (e : WebhookEvent) (store : List UserRecord) : List UserRecord :=
  match e.subscription_id with
  | none => store
  | some subId =>
    match classifyEvent e.type with
    | .activate =>
      match e.customer_email with
      | none => store
      | some em =>
        store.map fun u =>
          if u.email == em then activateFields subId e.next_billing_date now u else u
    | .cancel =>
      store.map fun u =>
        if u.subscription_id == some subId then
          cancelFields (e.next_billing_date.getD 0) now u
        else u
    | .paymentOk =>
      match e.customer_email with
      | none => store
      | some em =>
        store.map fun u =>
          if u.email == em then paymentFields subId e.next_billing_date now u else u
    | .paymentFail =>
      store.map fun u =>
        if u.subscription_id == some subId then
          { u with status := "payment_failed", updated_at := now }
        else u
    | .expire =>
      store.map fun u =>
        if u.subscription_id == some subId then
          { u with is_premium := false, status := "expired",
                   cancel_at_billing_date := false, updated_at := now }
        else u
    | .ignore => store

/-- POST /api/webhooks/dodopayments (server.js lines 263-411): the try
block processes the event and answers 200; a rejected await lands in the
catch block, which answers 500 (`thrown` carries the exception message,
none meaning no exception was thrown). -/
def webhookHandler (thrown : Option String) (now : Nat) (e : WebhookEvent)
    (store : List UserRecord) : Nat × List UserRecord :=
  match thrown with
  | some _ => (500, store)
  | none => (200, processEvent now e store)

/-- The routes registered on the Express app, in registration order
(server.js lines 85, 134, 190, 263, 414; the V0 revision registers the
same five routes). -/
def registeredRoutes : List (String × String) :=
  [("POST", "/api/create-subscription"),
   ("GET", "/api/user/:userId/status"),
   ("POST", "/api/cancel-subscription"),
   ("POST", "/api/webhooks/dodopayments"),
   ("GET", "/success")]

/-- A key by which a Supabase update selects its rows: one of
`.eq("email", _)`, `.eq("session_id", _)`, `.eq("subscription_id", _)`. -/
inductive MatchKey where
  | byEmail : String → MatchKey
  | bySession : String → MatchKey
  | bySubscription : String → MatchKey
deriving DecidableEq, Repr

/-- Whether a row is selected by the given key. -/
def matchesKey (k : MatchKey) (u : UserRecord) : Bool :=
  match k with
  | .byEmail em => u.email == em
  | .bySession s => u.session_id == some s
  | .bySubscription sid => u.subscription_id == some sid

/-- Key choice of the activation cases in the V0 revision (part_000
lines 310-329): email when present, else session id when present, else
(last resort, for renewals) the subscription id of the event. -/
def activationKeyV0 (subId : String) (e : WebhookEvent) : MatchKey :=
  match e.customer_email with
  | some em => .byEmail em
  | none =>
    match e.session_id with
    | some s => .bySession s
    | none => .bySubscription subId

/-- Activation cases of the V0 webhook (part_000 lines 295-354). -/
def processActivationV0 (now : Nat) (subId : String) (e : WebhookEvent)
    (store : List UserRecord) : List UserRecord :=
  store.map fun u =>
    if matchesKey (activationKeyV0 subId e) u then
      activateFields subId e.next_billing_date now u
    else u

/-- Key choice of the payment.succeeded case in the V0 revision
(part_000 lines 388-418): the subscription id when exactly one row
already carries it (the `single()` lookup), else the session id when
present, else the email when present, else no update at all. -/
def paymentKeyV0 (subId : String) (e : WebhookEvent) (store : List UserRecord) :
    Option MatchKey :=
  match store.filter (fun u => u.subscription_id == some subId) with
  | [_] => some (.bySubscription subId)
  | _ =>
    match e.session_id with
    | some s => some (.bySession s)
    | none =>
      match e.customer_email with
      | some em => some (.byEmail em)
      | none => none

/-- payment.succeeded case of the V0 webhook (part_000 lines 376-436). -/
def processPaymentV0 (now : Nat) (subId : String) (e : WebhookEvent)
    (store : List UserRecord) : List UserRecord :=
  match paymentKeyV0 subId e store with
  | none => store
  | some k =>
    store.map fun u =>
      if matchesKey k u then paymentFields subId e.next_billing_date now u else u

/-- The identity-resolution policy as the specification words it, for
comparison with the code: try (a) the provider subscription identifier
if already on file, then (b) the customer email, then (c) the checkout
session identifier; the first key that actually matches some record
wins, and if none matches the event produces no state change. -/
def specResolveKey (subId : String) (e : WebhookEvent) (store : List UserRecord) :
    Option MatchKey :=
  if store.any (matchesKey (.bySubscription subId)) then
    some (.bySubscription subId)
  else if (match e.customer_email with
           | some em => store.any (matchesKey (.byEmail em))
           | none => false) then
    e.customer_email.map MatchKey.byEmail
  else if (match e.session_id with
           | some s => store.any (matchesKey (.bySession s))
           | none => false) then
    e.session_id.map MatchKey.bySession
  else none

/-- A template row used to build the concrete stores of the witnesses
and counterexamples below. -/
def baseUser : UserRecord :=
  { user_id := "u1", email := "user@example.com", name := "User",
    subscription_id := some "sub_1", session_id := some "sess_1",
    is_premium := true, status := "cancelling",
    next_billing_date := some 2000, cancel_at_billing_date := true,
    created_at := 0, updated_at := 0 }

/-- The record invariant stated by the specification: a premium row has
status active or cancelling. -/
def premiumStatusInv (u : UserRecord) : Prop :=
  u.is_premium = true → u.status = "active" ∨ u.status = "cancelling"

/-- The weaker invariant the code actually maintains: a premium row has
one of the statuses active, cancelling, cancelled or payment_failed. -/
def weakPremiumInv (u : UserRecord) : Prop :=
  u.is_premium = true →
    u.status ∈ (["active", "cancelling", "cancelled", "payment_failed"] : List String)

instance : DecidablePred premiumStatusInv := fun u => by
  unfold premiumStatusInv
  infer_instance

instance : DecidablePred weakPremiumInv := fun u => by
  unfold weakPremiumInv
  infer_instance

/-- A second row whose subscription id "sub9" is on file while a
payment.succeeded event arrives for the fresh id "subNEW"; its email is
the one named by the event. -/
def cexUserA : UserRecord :=
  { baseUser with
      user_id := "uA", email := "a@x.com", subscription_id := some "sub9",
      session_id := some "sessA", is_premium := false, status := "free",
      cancel_at_billing_date := false, next_billing_date := none }

/-- A row with no subscription id on file whose stored session id is the
one named by the event. -/
def cexUserB : UserRecord :=
  { baseUser with
      user_id := "uB", email := "b@x.com", subscription_id := none,
      session_id := some "sessB", is_premium := false, status := "free",
      cancel_at_billing_date := false, next_billing_date := none }

/-- A payment.succeeded event carrying a fresh subscription id, the email
of cexUserA and the session id of cexUserB. -/
def cexPaymentEvent : WebhookEvent :=
  { type := "payment.succeeded", subscription_id := some "subNEW",
    customer_email := some "a@x.com", next_billing_date := some 100,
    session_id := some "sessB" }

theorem map_upd_self {α : Type} (p : α → Bool) (f : α → α)
    (hf : ∀ u, p u = true → f (f u) = f u) (l : List α) :
    ((l.map fun u => if p u then f u else u).map fun u => if p u then f u else u)
      = l.map fun u => if p u then f u else u := by
  rw [List.map_map]
  apply List.map_congr_left
  intro a _
  by_cases h : p a = true
  · simp only [Function.comp_apply, h, if_pos]
    by_cases h2 : p (f a) = true
    · simp [h2, hf a h]
    · simp [h2]
  · simp [Function.comp_apply, h]

theorem map_no_match_id {α : Type} (p : α → Bool) (f : α → α) (l : List α)
    (h : ∀ u ∈ l, p u = false) :
    (l.map fun u => if p u then f u else u) = l := by
  have : (l.map fun u => if p u then f u else u) = l.map id := by
    apply List.map_congr_left
    intro a ha
    simp [h a ha]
  simpa using this

theorem foldl_map_comm {α β : Type} (h : β → α → α) (l : List β) (s : List α) :
    l.foldl (fun s u => s.map (h u)) s = s.map fun x => l.foldl (fun x u => h u x) x := by
  induction l generalizing s with
  | nil => simp
  | cons u us ih =>
    simp only [List.foldl_cons]
    rw [ih, List.map_map]
    rfl

theorem expireFields_user_id (now : Nat) (x : UserRecord) :
    (expireFields now x).user_id = x.user_id := rfl

theorem expireFields_expireFields (now : Nat) (x : UserRecord) :
    expireFields now (expireFields now x) = expireFields now x := rfl

theorem foldl_expire_pointwise (now : Nat) (l : List UserRecord) (x : UserRecord) :
    l.foldl (fun x u => if x.user_id == u.user_id then expireFields now x else x) x
      = if l.any (fun u => x.user_id == u.user_id) then expireFields now x else x := by
  induction l generalizing x with
  | nil => simp
  | cons u us ih =>
    simp only [List.foldl_cons, List.any_cons]
    by_cases h : (x.user_id == u.user_id) = true
    · rw [if_pos h, ih]
      simp [h, expireFields_user_id, expireFields_expireFields]
    · simp only [Bool.not_eq_true] at h
      simpa [h] using ih x

theorem sweep_eq_map (now : Nat) (store : List UserRecord)
    (hnd : (store.map UserRecord.user_id).Nodup) :
    checkExpiredSubscriptions now store
      = store.map fun u => if sweepEligible now u then expireFields now u else u := by
  have hstep : checkExpiredSubscriptions now store
      = store.map fun x => (store.filter (sweepEligible now)).foldl
          (fun x u => if x.user_id == u.user_id then expireFields now x else x) x := by
    unfold checkExpiredSubscriptions expireUser
    exact foldl_map_comm _ _ _
  rw [hstep]
  apply List.map_congr_left
  intro x hx
  rw [foldl_expire_pointwise]
  by_cases he : sweepEligible now x = true
  · rw [if_pos he, if_pos]
    exact List.any_eq_true.mpr ⟨x, List.mem_filter.mpr ⟨hx, he⟩, by simp⟩
  · have hany : ((store.filter (sweepEligible now)).any fun u => x.user_id == u.user_id) = false := by
      rw [List.any_eq_false]
      intro u hu
      rcases List.mem_filter.mp hu with ⟨hus, hue⟩
      intro hb
      have hxu : x = u := List.inj_on_of_nodup_map hnd hx hus (by exact beq_iff_eq.mp hb)
      exact he (hxu ▸ hue)
    rw [hany, if_neg he]
    simp

theorem activateFields_idem (subId : String) (nb : Option Nat) (now : Nat) (u : UserRecord) :
    activateFields subId nb now (activateFields subId nb now u) = activateFields subId nb now u := by
  cases nb <;> rfl

theorem paymentFields_idem (subId : String) (nb : Option Nat) (now : Nat) (u : UserRecord) :
    paymentFields subId nb now (paymentFields subId nb now u) = paymentFields subId nb now u := by
  cases nb <;> rfl

theorem cancelFields_idem (nb now : Nat) (u : UserRecord) :
    cancelFields nb now (cancelFields nb now u) = cancelFields nb now u := rfl

theorem classify_cancelled_eq : classifyEvent "subscription.cancelled" = .cancel := by decide

theorem mem_map_cond {α : Type} (P : α → Prop) (p : α → Bool) (f : α → α)
    (hfP : ∀ u, P (f u)) (l : List α) (hl : ∀ u ∈ l, P u) :
    ∀ v ∈ l.map (fun u => if p u then f u else u), P v := by
  intro v hv
  rcases List.mem_map.mp hv with ⟨u, hu, huv⟩
  by_cases h : p u = true
  · rw [if_pos h] at huv
    exact huv ▸ hfP u
  · rw [if_neg h] at huv
    exact huv ▸ hl u hu

theorem foldl_expire_pres (now : Nat) (l : List UserRecord) (store : List UserRecord)
    (h : ∀ u ∈ store, weakPremiumInv u) :
    ∀ v ∈ l.foldl (fun s u => expireUser now u.user_id s) store, weakPremiumInv v := by
  induction l generalizing store with
  | nil => exact h
  | cons u us ih =>
    simp only [List.foldl_cons]
    exact ih _ (mem_map_cond weakPremiumInv _ _
      (fun x => by simp [weakPremiumInv, expireFields]) _ h)

theorem processEvent_pres (now : Nat) (e : WebhookEvent) (store : List UserRecord)
    (h : ∀ u ∈ store, weakPremiumInv u) :
    ∀ v ∈ processEvent now e store, weakPremiumInv v := by
  obtain ⟨t, osub, oem, onb, osess⟩ := e
  cases osub with
  | none => exact h
  | some subId =>
    cases hcl : classifyEvent t with
    | activate =>
      cases oem with
      | none => simpa [processEvent, hcl] using h
      | some em =>
        simp only [processEvent, hcl]
        exact mem_map_cond _ _ _ (fun u => by simp [weakPremiumInv, activateFields]) _ h
    | cancel =>
      simp only [processEvent, hcl]
      refine mem_map_cond _ _ _ (fun u => ?_) _ h
      intro hpr
      have hlt : now < onb.getD 0 := by simpa [cancelFields] using hpr
      simp [cancelFields, hlt]
    | paymentOk =>
      cases oem with
      | none => simpa [processEvent, hcl] using h
      | some em =>
        simp only [processEvent, hcl]
        exact mem_map_cond _ _ _ (fun u => by simp [weakPremiumInv, paymentFields]) _ h
    | paymentFail =>
      simp only [processEvent, hcl]
      exact mem_map_cond _ _ _ (fun u => by simp [weakPremiumInv]) _ h
    | expire =>
      simp only [processEvent, hcl]
      exact mem_map_cond _ _ _ (fun u => by simp [weakPremiumInv]) _ h
    | ignore => simpa [processEvent, hcl] using h

theorem getUserStatus_pres (now : Nat) (uid : String) (store : List UserRecord)
    (h : ∀ u ∈ store, weakPremiumInv u) :
    ∀ v ∈ (getUserStatus now uid store).2, weakPremiumInv v := by
  unfold getUserStatus
  split
  · split
    · split
      · exact mem_map_cond _ _ _ (fun u => by simp [weakPremiumInv]) _ h
      · exact h
    · exact h
  · exact h

theorem cancelSubscription_pres (pok : Bool) (now : Nat) (uid sid : String)
    (store : List UserRecord) (h : ∀ u ∈ store, weakPremiumInv u) :
    ∀ v ∈ (cancelSubscription pok now uid sid store).2, weakPremiumInv v := by
  unfold cancelSubscription
  split
  · split
    · exact mem_map_cond _ _ _ (fun u => by simp [weakPremiumInv]) _ h
    · exact h
  · exact h

/-- C1: evaluating the subscription.cancelled webhook at a billing date
ten days in the future (now = 1000 ms, next_billing_date = 865001000 ms)
keeps premium and sets the cancellation flag as the claim states, but the
persisted status is the string "cancelled", not "cancelling". -/
theorem cancelled_webhook_writes_cancelled_status :
    processEvent 1000 ⟨"subscription.cancelled", some "sub_1", none, some 865001000, none⟩
        [baseUser]
      = [{ baseUser with
             is_premium := true, status := "cancelled",
             cancel_at_billing_date := true, updated_at := 1000 }]
    ∧ ("cancelled" == "cancelling") = false := by decide

/-- C2 counterexample: a webhook request whose internal processing fails
with a thrown error is answered with HTTP 500, not with the success
acknowledgment the claim promises. -/
theorem webhook_thrown_error_returns_500 :
    (webhookHandler (some "store connection failed") 7
        ⟨"subscription.cancelled", some "sub_1", none, some 9999, none⟩ [baseUser]).1 = 500
    ∧ ((webhookHandler (some "store connection failed") 7
        ⟨"subscription.cancelled", some "sub_1", none, some 9999, none⟩ [baseUser]).1 == 200)
      = false := by decide

/-- C2 amended: every webhook request whose processing completes without
a thrown exception is acknowledged with HTTP 200 (whatever the event and
whether or not any record matched), while a thrown internal error is
answered with HTTP 500. -/
theorem webhook_ack_semantics (now : Nat) (e : WebhookEvent) (store : List UserRecord)
    (msg : String) :
    webhookHandler none now e store = (200, processEvent now e store)
    ∧ webhookHandler (some msg) now e store = (500, store) := ⟨rfl, rfl⟩

/-- C3 counterexample: for a record under pending cancellation with the
billing date still in the future, the on-demand status query reports the
stored status "cancelling" while the webhook cancellation handler writes
"cancelled", so the three grace-period sites do not compute the same
(isPremium, status) outcome. -/
theorem grace_check_sites_disagree_on_status :
    (getUserStatus 1000 "u1" [baseUser]).1.status = "cancelling"
    ∧ (processEvent 1000 ⟨"subscription.cancelled", some "sub_1", none, some 2000, none⟩
        [baseUser]).map UserRecord.status = ["cancelled"]
    ∧ ("cancelled" == "cancelling") = false := by decide

/-- C3 amended: all three grace-period sites apply the identical strict
tie-break on the premium flag — a record with cancellation pending keeps
premium exactly when the billing date is strictly greater than now, and
when the billing date is at or before now all three produce exactly
(isPremium = false, status = expired); on the keep-premium side, however,
the webhook rewrites the status to "cancelled" (and the cancellation
flag), while the query and the sweep leave the stored record unchanged. -/
theorem grace_check_sites_strict_tiebreak (now d : Nat) (s : String) (u : UserRecord)
    (hc : u.cancel_at_billing_date = true) (hp : u.is_premium = true)
    (hn : u.next_billing_date = some d) (hs : u.subscription_id = some s) :
    (checkExpiredSubscriptions now [u] = [if d ≤ now then expireFields now u else u])
    ∧ (getUserStatus now u.user_id [u]
       = if d ≤ now then
           ({ isPremium := false, status := "expired" },
            [{ u with is_premium := false, status := "expired", updated_at := now }])
         else ({ isPremium := true, status := u.status }, [u]))
    ∧ (processEvent now { type := "subscription.cancelled", subscription_id := some s,
                          customer_email := none, next_billing_date := some d,
                          session_id := none } [u]
       = [if d ≤ now then
            { u with is_premium := false, status := "expired",
                     cancel_at_billing_date := false, updated_at := now }
          else
            { u with is_premium := true, status := "cancelled",
                     cancel_at_billing_date := true, updated_at := now }]) := by
  refine ⟨?_, ?_, ?_⟩
  · by_cases hd : d ≤ now
    · rw [if_pos hd]
      simp [checkExpiredSubscriptions, sweepEligible, hc, hp, hn, hd, expireUser]
    · rw [if_neg hd]
      simp [checkExpiredSubscriptions, sweepEligible, hc, hp, hn, hd]
  · by_cases hd : d ≤ now
    · rw [if_pos hd]
      simp [getUserStatus, hc, hn, hs, hd]
    · rw [if_neg hd]
      simp [getUserStatus, hc, hn, hs, hd, hp]
  · by_cases hd : d ≤ now
    · have hlt : ¬ now < d := by omega
      rw [if_pos hd]
      simp [processEvent, classify_cancelled_eq, hs, cancelFields, hlt]
    · have hlt : now < d := by omega
      rw [if_neg hd]
      simp [processEvent, classify_cancelled_eq, hs, cancelFields, hlt]

/-- C3 witness: the three sites evaluated on a concrete cancelling record
whose billing date (2000) is still ahead of now (1000). -/
theorem grace_check_sites_strict_tiebreak_witness :
    checkExpiredSubscriptions 1000 [baseUser] = [baseUser]
    ∧ getUserStatus 1000 "u1" [baseUser]
      = ({ isPremium := true, status := "cancelling" }, [baseUser])
    ∧ processEvent 1000 ⟨"subscription.cancelled", some "sub_1", none, some 2000, none⟩
        [baseUser]
      = [{ baseUser with
             is_premium := true, status := "cancelled",
             cancel_at_billing_date := true, updated_at := 1000 }] := by
  have h := grace_check_sites_strict_tiebreak 1000 2000 "sub_1" baseUser rfl rfl rfl rfl
  exact ⟨h.1.trans (by decide), h.2.1.trans (by decide), h.2.2.trans (by decide)⟩

/-- C4 counterexample: a record satisfying the invariant (premium with
status active) is taken by a payment.failed event to a record that is
still premium but has status payment_failed, which violates the
invariant. -/
theorem payment_failed_breaks_premium_invariant :
    decide (premiumStatusInv
      { baseUser with status := "active", cancel_at_billing_date := false }) = true
    ∧ processEvent 5 ⟨"payment.failed", some "sub_1", none, none, none⟩
        [{ baseUser with status := "active", cancel_at_billing_date := false }]
      = [{ baseUser with
             status := "payment_failed", cancel_at_billing_date := false,
             updated_at := 5 }]
    ∧ decide (premiumStatusInv
      { baseUser with
          status := "payment_failed", cancel_at_billing_date := false,
          updated_at := 5 }) = false := by decide

/-- C4 amended: the weaker invariant actually maintained — a premium row
has status active, cancelling, cancelled or payment_failed — is preserved
by every operation of the subsystem: the webhook handler (every event
case, thrown or not), the status query, the periodic sweep and the
cancellation endpoint. -/
theorem weak_premium_invariant_preserved (thrown : Option String) (pok : Bool) (now : Nat)
    (e : WebhookEvent) (uid sid : String) (store : List UserRecord)
    (h : ∀ u ∈ store, weakPremiumInv u) :
    (∀ v ∈ (webhookHandler thrown now e store).2, weakPremiumInv v)
    ∧ (∀ v ∈ (getUserStatus now uid store).2, weakPremiumInv v)
    ∧ (∀ v ∈ checkExpiredSubscriptions now store, weakPremiumInv v)
    ∧ (∀ v ∈ (cancelSubscription pok now uid sid store).2, weakPremiumInv v) := by
  refine ⟨?_, getUserStatus_pres now uid store h,
    foldl_expire_pres now _ store h, cancelSubscription_pres pok now uid sid store h⟩
  cases thrown with
  | none => exact processEvent_pres now e store h
  | some m => exact h

/-- C4 witness: the preservation theorem applied to a concrete
single-record store satisfying the weak invariant. -/
theorem weak_premium_invariant_preserved_witness :
    (∀ u ∈ [baseUser], weakPremiumInv u)
    ∧ ((∀ v ∈ (webhookHandler none 5 ⟨"payment.failed", some "sub_1", none, none, none⟩
          [baseUser]).2, weakPremiumInv v)
       ∧ (∀ v ∈ (getUserStatus 5 "u1" [baseUser]).2, weakPremiumInv v)
       ∧ (∀ v ∈ checkExpiredSubscriptions 5 [baseUser], weakPremiumInv v)
       ∧ (∀ v ∈ (cancelSubscription true 5 "u1" "sub_1" [baseUser]).2, weakPremiumInv v)) :=
  ⟨by decide, weak_premium_invariant_preserved none true 5
    ⟨"payment.failed", some "sub_1", none, none, none⟩ "u1" "sub_1" [baseUser] (by decide)⟩

/-- C5: a payment.failed event updates exactly the rows carrying its
subscription id, setting only status (to payment_failed) and the
last-update timestamp; every other field, isPremium included, keeps its
prior value, and non-matching rows are untouched. -/
theorem payment_failed_frame_effect (now : Nat) (s : String) (oem : Option String)
    (onb : Option Nat) (osess : Option String) (store : List UserRecord) :
    processEvent now ⟨"payment.failed", some s, oem, onb, osess⟩ store
      = store.map fun u =>
          if u.subscription_id == some s then
            { u with status := "payment_failed", updated_at := now }
          else u := rfl

/-- C6: assuming the user ids of the store are pairwise distinct (userId
is the unique key of the table), one run of the sweep maps every record
with cancel_at_billing_date, is_premium and a billing date at or before
now to (isPremium = false, status = expired, updatedAt = now), and leaves
every other record unchanged. -/
theorem sweep_expires_exactly_eligible (now : Nat) (store : List UserRecord)
    (hnd : (store.map UserRecord.user_id).Nodup) :
    checkExpiredSubscriptions now store
      = store.map fun u =>
          if u.cancel_at_billing_date && u.is_premium &&
              (match u.next_billing_date with
               | some d => decide (d ≤ now)
               | none => false) then
            { u with is_premium := false, status := "expired", updated_at := now }
          else u :=
  sweep_eq_map now store hnd

/-- C6 witness: a two-record store, one eligible row (billing date 2000,
now = 3000) expired by the sweep and one ineligible row left unchanged. -/
theorem sweep_expires_exactly_eligible_witness :
    (([baseUser, { baseUser with user_id := "u2", cancel_at_billing_date := false }].map
        UserRecord.user_id).Nodup)
    ∧ checkExpiredSubscriptions 3000
        [baseUser, { baseUser with user_id := "u2", cancel_at_billing_date := false }]
      = [{ baseUser with is_premium := false, status := "expired", updated_at := 3000 },
         { baseUser with user_id := "u2", cancel_at_billing_date := false }] :=
  ⟨by decide, (sweep_expires_exactly_eligible 3000 _ (by decide)).trans (by decide)⟩

/-- C7 counterexample: a payment.succeeded event carrying both an email
and a session id, with no record holding its subscription id on file.
The claimed order (subscription id, then email, then session id) resolves
to the email-matching row cexUserA, but the code commits to the session
key and updates cexUserB instead. -/
theorem resolution_order_counterexample :
    decide (specResolveKey "subNEW" cexPaymentEvent [cexUserA, cexUserB]
      = some (.byEmail "a@x.com")) = true
    ∧ decide (paymentKeyV0 "subNEW" cexPaymentEvent [cexUserA, cexUserB]
      = some (.bySession "sessB")) = true
    ∧ (processPaymentV0 5 "subNEW" cexPaymentEvent [cexUserA, cexUserB]).map
        UserRecord.user_id = ["uA", "uB"]
    ∧ (processPaymentV0 5 "subNEW" cexPaymentEvent [cexUserA, cexUserB]).map
        UserRecord.status = ["free", "active"]
    ∧ decide (specResolveKey "subNEW" cexPaymentEvent [cexUserA, cexUserB]
      = paymentKeyV0 "subNEW" cexPaymentEvent [cexUserA, cexUserB]) = false := by
  decide

/-- C7 amended: the orders the code actually uses.  payment.succeeded
resolves by the subscription id when exactly one row has it on file, else
by the session id when the event carries one, else by the email, else it
skips; the activation cases resolve by the email when present, else the
session id, else the subscription id — committing to the first key
present on the event rather than the first key that matches.  In every
case, a chosen key that matches no record (or no available key) leaves
the store unchanged, the event being acknowledged regardless. -/
theorem resolution_order_of_code (now : Nat) (subId : String) (e : WebhookEvent)
    (store : List UserRecord) :
    ((store.filter fun u => u.subscription_id == some subId).length = 1 →
        paymentKeyV0 subId e store = some (.bySubscription subId))
    ∧ (∀ s, (store.filter fun u => u.subscription_id == some subId).length ≠ 1 →
        e.session_id = some s → paymentKeyV0 subId e store = some (.bySession s))
    ∧ (∀ em, (store.filter fun u => u.subscription_id == some subId).length ≠ 1 →
        e.session_id = none → e.customer_email = some em →
        paymentKeyV0 subId e store = some (.byEmail em))
    ∧ ((store.filter fun u => u.subscription_id == some subId).length ≠ 1 →
        e.session_id = none → e.customer_email = none →
        paymentKeyV0 subId e store = none ∧ processPaymentV0 now subId e store = store)
    ∧ (∀ k, paymentKeyV0 subId e store = some k →
        (∀ u ∈ store, matchesKey k u = false) →
        processPaymentV0 now subId e store = store)
    ∧ (∀ em, e.customer_email = some em → activationKeyV0 subId e = .byEmail em)
    ∧ (∀ s, e.customer_email = none → e.session_id = some s →
        activationKeyV0 subId e = .bySession s)
    ∧ (e.customer_email = none → e.session_id = none →
        activationKeyV0 subId e = .bySubscription subId)
    ∧ ((∀ u ∈ store, matchesKey (activationKeyV0 subId e) u = false) →
        processActivationV0 now subId e store = store) := by
  obtain ⟨t, osub, oem, onb, osess⟩ := e
  refine ⟨?_, ?_, ?_, ?_, ?_, ?_, ?_, ?_, ?_⟩
  · intro h1
    rcases List.length_eq_one.mp h1 with ⟨a, ha⟩
    simp [paymentKeyV0, ha]
  · intro s h1 hs
    subst hs
    cases hft : store.filter (fun u => u.subscription_id == some subId) with
    | nil => simp [paymentKeyV0, hft]
    | cons a l =>
      cases l with
      | nil => exact absurd (by rw [hft]; rfl) h1
      | cons b l2 => simp [paymentKeyV0, hft]
  · intro em h1 hs hem
    subst hs; subst hem
    cases hft : store.filter (fun u => u.subscription_id == some subId) with
    | nil => simp [paymentKeyV0, hft]
    | cons a l =>
      cases l with
      | nil => exact absurd (by rw [hft]; rfl) h1
      | cons b l2 => simp [paymentKeyV0, hft]
  · intro h1 hs hem
    subst hs; subst hem
    have hk : paymentKeyV0 subId ⟨t, osub, none, onb, none⟩ store = none := by
      cases hft : store.filter (fun u => u.subscription_id == some subId) with
      | nil => simp [paymentKeyV0, hft]
      | cons a l =>
        cases l with
        | nil => exact absurd (by rw [hft]; rfl) h1
        | cons b l2 => simp [paymentKeyV0, hft]
    exact ⟨hk, by simp [processPaymentV0, hk]⟩
  · intro k hk hnom
    simp only [processPaymentV0, hk]
    exact map_no_match_id _ _ _ hnom
  · intro em hem
    simp only [] at hem
    subst hem
    simp [activationKeyV0]
  · intro s hem hs
    simp only [] at hem hs
    subst hem; subst hs
    simp [activationKeyV0]
  · intro hem hs
    simp only [] at hem hs
    subst hem; subst hs
    simp [activationKeyV0]
  · intro hnom
    unfold processActivationV0
    exact map_no_match_id _ _ _ hnom

/-- C7 witness: with exactly one row carrying the subscription id on
file, payment.succeeded resolves by that id. -/
theorem resolution_order_of_code_witness :
    ([baseUser].filter fun u => u.subscription_id == some "sub_1").length = 1
    ∧ paymentKeyV0 "sub_1" ⟨"payment.succeeded", some "sub_1", none, none, none⟩ [baseUser]
      = some (.bySubscription "sub_1") :=
  ⟨by decide, (resolution_order_of_code 0 "sub_1"
    ⟨"payment.succeeded", some "sub_1", none, none, none⟩ [baseUser]).1 (by decide)⟩

/-- C8: processing the same webhook event twice at the same instant
yields the same store as processing it once — every field written,
updated_at included, is a function of the event and the instant alone, so
re-delivery is a no-op overwrite. -/
theorem processEvent_idempotent (now : Nat) (e : WebhookEvent) (store : List UserRecord) :
    processEvent now e (processEvent now e store) = processEvent now e store := by
  obtain ⟨t, osub, oem, onb, osess⟩ := e
  cases osub with
  | none => rfl
  | some subId =>
    cases hcl : classifyEvent t with
    | activate =>
      cases oem with
      | none => simp only [processEvent, hcl]
      | some em =>
        simp only [processEvent, hcl]
        exact map_upd_self _ _ (fun u _ => activateFields_idem subId onb now u) store
    | cancel =>
      simp only [processEvent, hcl]
      exact map_upd_self _ _ (fun u _ => cancelFields_idem _ now u) store
    | paymentOk =>
      cases oem with
      | none => simp only [processEvent, hcl]
      | some em =>
        simp only [processEvent, hcl]
        exact map_upd_self _ _ (fun u _ => paymentFields_idem subId onb now u) store
    | paymentFail =>
      simp only [processEvent, hcl]
      exact map_upd_self (fun u => u.subscription_id == some subId)
        (fun u => { u with status := "payment_failed", updated_at := now })
        (fun u _ => rfl) store
    | expire =>
      simp only [processEvent, hcl]
      exact map_upd_self (fun u => u.subscription_id == some subId)
        (fun u => { u with is_premium := false, status := "expired",
                           cancel_at_billing_date := false, updated_at := now })
        (fun u _ => rfl) store
    | ignore => simp only [processEvent, hcl]

/-- C9: the route table of the Express app has no entry for
POST /api/check-expired-subscriptions; the manual sweep trigger the guide
documents is not registered by either server revision. -/
theorem no_manual_sweep_route :
    registeredRoutes.contains ("POST", "/api/check-expired-subscriptions") = false := by
  decide

/-- C10: when no row matches the user id, or the unique matching row has
no subscription id, the status endpoint answers (isPremium = false,
status = free) whatever the stored values, and returns the store
unmodified. -/
theorem status_free_when_no_subscription (now : Nat) (uid : String) (store : List UserRecord)
    (h : store.filter (fun u => u.user_id == uid) = []
         ∨ ∃ u, store.filter (fun u => u.user_id == uid) = [u] ∧ u.subscription_id = none) :
    getUserStatus now uid store = ({ isPremium := false, status := "free" }, store) := by
  rcases h with h | ⟨u, hu, hsub⟩
  · simp [getUserStatus, h]
  · simp [getUserStatus, hu, hsub]

/-- C10 witness: a store whose only row matches the queried user id but
has no subscription id yet. -/
theorem status_free_when_no_subscription_witness :
    (∃ u, ([{ baseUser with subscription_id := none }].filter
        fun u => u.user_id == "u1") = [u] ∧ u.subscription_id = none)
    ∧ getUserStatus 0 "u1" [{ baseUser with subscription_id := none }]
      = ({ isPremium := false, status := "free" },
         [{ baseUser with subscription_id := none }]) :=
  ⟨⟨{ baseUser with subscription_id := none }, by decide, rfl⟩,
   status_free_when_no_subscription 0 "u1" [{ baseUser with subscription_id := none }]
     (Or.inr ⟨{ baseUser with subscription_id := none }, by decide, rfl⟩)⟩
